import Mathlib

/-!
Verification of the GESCO reporting-job repository.

The development shallowly embeds the decision logic of the repository:

* `start_time` — the report-window start computation of
  `fetch_answer_without_citations` (src/mmr_chunks_retrieval_script.py,
  lines 43-81), over instants modelled as microseconds since an epoch
  (UTC, matching Python's timezone-aware `datetime` arithmetic).
* `resolve_start` — the same logic with the checkpoint list and minute
  offset as parameters, per the spec's resolver contract; Python
  exceptions (IndexError on an empty list, ValueError/OverflowError from
  `replace`/day subtraction) become `none`.
* `resolve_end` — the window end instant, modelled from the spec (the
  source computes only the start).
* `fetch_feedback_error_return` / `py_unpack` — the tuple shapes returned
  by `fetch_feedback_data_in_chunks` and the tuple-unpacking done by
  `main` (src/feedback_script.py).
* `convert_str_to_list` — the string-to-list conversion helper
  (src/feedback_script.py, lines 28-40).
-/

namespace Gesco

/-! ## Instants

An instant is the number of microseconds since an (arbitrary) epoch that
starts at midnight UTC.  `hourOf`, `minuteOf`, `secondOf`,
`microsecondOf` are the components of the corresponding UTC datetime;
`dateOf` is its day index.  `replaceTime` is Python's
`dt.replace(hour=h, minute=m, second=s, microsecond=us)` for an aware
UTC datetime. -/

def usPerSecond : Nat := 1000000

def usPerMinute : Nat := 60 * usPerSecond

def usPerHour : Nat := 60 * usPerMinute

def usPerDay : Nat := 24 * usPerHour

def hourOf (t : Nat) : Nat := t / usPerHour % 24

def minuteOf (t : Nat) : Nat := t / usPerMinute % 60

def secondOf (t : Nat) : Nat := t / usPerSecond % 60

def microsecondOf (t : Nat) : Nat := t % usPerSecond

def dateOf (t : Nat) : Nat := t / usPerDay

def replaceTime (t h m s us : Nat) : Nat :=
  dateOf t * usPerDay + h * usPerHour + m * usPerMinute + s * usPerSecond + us

/-- The instant of day `day` at `h`:`m`:00.000000 UTC, used to state the
claims ("today at 04:30" etc.). -/
def atTime (day h m : Nat) : Nat := day * usPerDay + h * usPerHour + m * usPerMinute

/-! ## The report-window start computation of the source -/

/-- The checkpoint list hardcoded in `fetch_answer_without_citations`
(src/mmr_chunks_retrieval_script.py lines 45-50). -/
def REPORT_TIMES_UTC : List Nat := [4, 7, 10, 13]

/-- Python `max(l, default=d)`: the maximum of `l`, or `d` when `l` is
empty. -/
def pyMaxD (l : List Nat) (d : Nat) : Nat :=
  match l with
  | [] => d
  | x :: xs => xs.foldl Nat.max x

/-- Python `l.index(x)`: index of the first occurrence of `x` in `l`
(callers below only use it when `x` is a member). -/
def pyIndex (l : List Nat) (x : Nat) : Nat :=
  match l with
  | [] => 0
  | y :: ys => if y = x then 0 else pyIndex ys x + 1

/-- The `start_time` computed by `fetch_answer_without_citations`
(src/mmr_chunks_retrieval_script.py lines 52-81): select the most recent
checkpoint hour `<= now.hour` (defaulting to the last checkpoint); if it
is the first checkpoint, start at the previous day's last checkpoint at
minute 30, else at the checkpoint preceding the selected one, on `now`'s
own day, at minute 30. -/
def start_time (now : Nat) : Nat :=
  let current_hour_utc := hourOf now
  let last_report_time :=
    pyMaxD (REPORT_TIMES_UTC.filter (fun h => h ≤ current_hour_utc))
      (REPORT_TIMES_UTC.getLastD 0)
  if last_report_time = REPORT_TIMES_UTC.getD 0 0 then
    replaceTime (now - usPerDay) (REPORT_TIMES_UTC.getLastD 0) 30 0 0
  else
    let prev_report_time :=
      REPORT_TIMES_UTC.getD (pyIndex REPORT_TIMES_UTC last_report_time - 1) 0
    replaceTime now prev_report_time 30 0 0

/-! ## The resolver contract of the spec -/

/-- The resolver per the spec's contract
`resolve(now, checkpoints, minute_offset) -> start`.  The body mirrors
the source's `start_time` computation exactly, with the checkpoint list
and minute offset as parameters; Python failures are `none`: IndexError
on an empty list, ValueError when the hour or minute passed to
`replace` is out of range, OverflowError when the previous day does not
exist. -/
def resolve_start (checkpoints : List Nat) (minute_offset : Nat) (now : Nat) :
    Option Nat :=
  match checkpoints with
  | [] => none
  | c0 :: rest =>
    let cs := c0 :: rest
    let lastCp := cs.getLastD 0
    let last := pyMaxD (cs.filter (fun h => h ≤ hourOf now)) lastCp
    if last = c0 then
      if lastCp < 24 ∧ minute_offset < 60 ∧ usPerDay ≤ now then
        some (replaceTime (now - usPerDay) lastCp minute_offset 0 0)
      else none
    else
      let prev := cs.getD (pyIndex cs last - 1) 0
      if prev < 24 ∧ minute_offset < 60 then
        some (replaceTime now prev minute_offset 0 0)
      else none

/-- Modelled from the spec: the `end` instant of the report window.  The
source computes only `start_time`; the spec (§3, §4.1 steps 2-3) defines
`end` as the instant of the most recently passed checkpoint at the
minute offset — on `now`'s day, or on the previous day when no
checkpoint has passed yet today (the wrapped case).  Python-style
failures are `none` as in `resolve_start`. -/
def resolve_end (checkpoints : List Nat) (minute_offset : Nat) (now : Nat) :
    Option Nat :=
  match checkpoints with
  | [] => none
  | c0 :: rest =>
    let cs := c0 :: rest
    match cs.filter (fun h => h ≤ hourOf now) with
    | [] =>
      let lastCp := cs.getLastD 0
      if lastCp < 24 ∧ minute_offset < 60 ∧ usPerDay ≤ now then
        some (replaceTime (now - usPerDay) lastCp minute_offset 0 0)
      else none
    | p :: ps =>
      let last := pyMaxD (p :: ps) 0
      if last < 24 ∧ minute_offset < 60 then
        some (replaceTime now last minute_offset 0 0)
      else none

/-! ## feedback_script.py: return shapes and tuple unpacking -/

/-- A Python value as far as the feedback job's return tuples are
concerned: `None`, an integer count, or the dataframe-chunks object
produced by `pd.read_sql`. -/
inductive PyV where
  | pyNone : PyV
  | pyInt : Int → PyV
  | frame : PyV
deriving DecidableEq

/-- The tuple returned by the `except` branch of
`fetch_feedback_data_in_chunks` (src/feedback_script.py line 129):
`return None, 0, 0, 0`. -/
def fetch_feedback_error_return : List PyV :=
  [PyV.pyNone, PyV.pyInt 0, PyV.pyInt 0, PyV.pyInt 0]

/-- The tuple returned by the success path of
`fetch_feedback_data_in_chunks` (src/feedback_script.py lines 119-126):
the dataframe chunks followed by six counts. -/
def fetch_feedback_success_return (df : PyV) (c1 c2 c3 c4 c5 c6 : Int) :
    List PyV :=
  [df, PyV.pyInt c1, PyV.pyInt c2, PyV.pyInt c3, PyV.pyInt c4,
   PyV.pyInt c5, PyV.pyInt c6]

/-- The number of assignment targets in `main`'s tuple unpacking of
`fetch_feedback_data_in_chunks()` (src/feedback_script.py lines
238-242). -/
def main_unpack_targets : Nat := 7

/-- Python tuple unpacking: assigning a tuple to `n` names succeeds
exactly when the tuple has `n` elements, and raises ValueError
otherwise. -/
def py_unpack (n : Nat) (vals : List PyV) : Except String (List PyV) :=
  if vals.length = n then Except.ok vals
  else Except.error "ValueError: unpacking length mismatch"

/-! ## feedback_script.py: convert_str_to_list -/

/-- Characters written by code point to keep the embedding readable:
`[`, `]`, `"`, the apostrophe, and the comma. -/
def lbrack : Char := Char.ofNat 91

def rbrack : Char := Char.ofNat 93

def dquote : Char := Char.ofNat 34

def squote : Char := Char.ofNat 39

def commaChar : Char := Char.ofNat 44

/-- Python's whitespace set for `str.strip()`: space, tab, newline,
carriage return, form feed, vertical tab. -/
def pyWhitespace : List Char :=
  [Char.ofNat 32, Char.ofNat 9, Char.ofNat 10, Char.ofNat 13,
   Char.ofNat 12, Char.ofNat 11]

/-- Python `s.strip(chars)` on a character list: remove leading and
trailing characters belonging to `cs`. -/
def pyStripChars (cs : List Char) (l : List Char) : List Char :=
  ((l.dropWhile (fun c => cs.contains c)).reverse.dropWhile
    (fun c => cs.contains c)).reverse

/-- Python `s.split(sep)` for a one-character separator: split on every
occurrence, keeping empty pieces; the result is never the empty list
(splitting the empty string gives `[""]`). -/
def pySplitChar (sep : Char) : List Char → List (List Char)
  | [] => [[]]
  | c :: rest =>
    if c = sep then [] :: pySplitChar sep rest
    else
      match pySplitChar sep rest with
      | [] => [[c]]
      | g :: gs => (c :: g) :: gs

/-- Python `item.strip()` on a string. -/
def pyStrip (s : String) : String := String.mk (pyStripChars pyWhitespace s.toList)

/-- A Python value as far as `convert_str_to_list` is concerned: the
function receives either a string (the env-var case) or an already
converted value it returns unchanged. -/
inductive PyObj where
  | str : String → PyObj
  | listS : List String → PyObj
  | intO : Int → PyObj
  | noneO : PyObj
deriving DecidableEq

/-- `convert_str_to_list` (src/feedback_script.py lines 28-40): for a
string, strip the outer `[` `]` characters, delete every `"` and
apostrophe, split on commas, and strip whitespace from each piece; any
non-string input is returned unchanged. -/
def convert_str_to_list : PyObj → PyObj
  | PyObj.str s =>
    let stripped := pyStripChars [lbrack, rbrack] s.toList
    let noQuotes := stripped.filter (fun c => !(c = dquote || c = squote))
    PyObj.listS ((pySplitChar commaChar noQuotes).map
      (fun item => pyStrip (String.mk item)))
  | v => v

/-- The transformation the claim describes, assembled from the same
pipeline pieces: strip outer brackets, remove quote characters, split on
commas, trim whitespace from each item. -/
def claimed_transform (s : String) : List String :=
  ((pySplitChar commaChar
      ((pyStripChars [lbrack, rbrack] s.toList).filter
        (fun c => !(c = dquote || c = squote)))).map
    (fun item => pyStrip (String.mk item)))

/-! ## Arithmetic lemmas about the time model -/

lemma hourOf_replaceTime (t h m : Nat) (hh : h < 24) (hm : m < 60) :
    hourOf (replaceTime t h m 0 0) = h := by
  simp only [hourOf, replaceTime, dateOf, usPerDay, usPerHour, usPerMinute, usPerSecond]
  omega

lemma minuteOf_replaceTime (t h m : Nat) (hm : m < 60) :
    minuteOf (replaceTime t h m 0 0) = m := by
  simp only [minuteOf, replaceTime, dateOf, usPerDay, usPerHour, usPerMinute, usPerSecond]
  omega

lemma secondOf_replaceTime (t h m : Nat) :
    secondOf (replaceTime t h m 0 0) = 0 := by
  simp only [secondOf, replaceTime, dateOf, usPerDay, usPerHour, usPerMinute, usPerSecond]
  omega

lemma microsecondOf_replaceTime (t h m : Nat) :
    microsecondOf (replaceTime t h m 0 0) = 0 := by
  simp only [microsecondOf, replaceTime, dateOf, usPerDay, usPerHour, usPerMinute, usPerSecond]
  omega

lemma replaceTime_eq_atTime (t h m : Nat) :
    replaceTime t h m 0 0 = atTime (dateOf t) h m := by
  simp [replaceTime, atTime]

lemma dateOf_sub_day (t : Nat) (ht : usPerDay ≤ t) :
    dateOf (t - usPerDay) = dateOf t - 1 := by
  simp only [usPerDay, usPerHour, usPerMinute, usPerSecond] at ht
  simp only [dateOf, usPerDay, usPerHour, usPerMinute, usPerSecond]
  omega

lemma hourOf_lt (t : Nat) : hourOf t < 24 := Nat.mod_lt _ (by norm_num)

/-! ## Evaluation lemmas for the source's checkpoint selection -/

/-- `start_time` with the hour of `now` abstracted out, so that the
branch taken can be computed by enumerating the 24 possible hours. -/
def start_time_of (hr now : Nat) : Nat :=
  let last_report_time :=
    pyMaxD (REPORT_TIMES_UTC.filter (fun h => h ≤ hr))
      (REPORT_TIMES_UTC.getLastD 0)
  if last_report_time = REPORT_TIMES_UTC.getD 0 0 then
    replaceTime (now - usPerDay) (REPORT_TIMES_UTC.getLastD 0) 30 0 0
  else
    let prev_report_time :=
      REPORT_TIMES_UTC.getD (pyIndex REPORT_TIMES_UTC last_report_time - 1) 0
    replaceTime now prev_report_time 30 0 0

lemma start_time_eq_of (now : Nat) : start_time now = start_time_of (hourOf now) now := rfl

lemma start_time_of_eval (hr now : Nat) (h24 : hr < 24) :
    start_time_of hr now =
      if hr < 4 then replaceTime now 10 30 0 0
      else if hr < 7 then replaceTime (now - usPerDay) 13 30 0 0
      else if hr < 10 then replaceTime now 4 30 0 0
      else if hr < 13 then replaceTime now 7 30 0 0
      else replaceTime now 10 30 0 0 := by
  interval_cases hr <;>
    simp [start_time_of, REPORT_TIMES_UTC, pyMaxD, pyIndex, List.filter]

/-- `resolve_end` with the hour of `now` abstracted out. -/
def resolve_end_of (checkpoints : List Nat) (minute_offset hr now : Nat) :
    Option Nat :=
  match checkpoints with
  | [] => none
  | c0 :: rest =>
    let cs := c0 :: rest
    match cs.filter (fun h => h ≤ hr) with
    | [] =>
      let lastCp := cs.getLastD 0
      if lastCp < 24 ∧ minute_offset < 60 ∧ usPerDay ≤ now then
        some (replaceTime (now - usPerDay) lastCp minute_offset 0 0)
      else none
    | p :: ps =>
      let last := pyMaxD (p :: ps) 0
      if last < 24 ∧ minute_offset < 60 then
        some (replaceTime now last minute_offset 0 0)
      else none

lemma resolve_end_eq_of (cs : List Nat) (mo now : Nat) :
    resolve_end cs mo now = resolve_end_of cs mo (hourOf now) now := by
  cases cs <;> rfl

lemma resolve_end_rt_eval (hr now : Nat) (h24 : hr < 24) :
    resolve_end_of REPORT_TIMES_UTC 30 hr now =
      if hr < 4 then
        (if usPerDay ≤ now then some (replaceTime (now - usPerDay) 13 30 0 0)
         else none)
      else if hr < 7 then some (replaceTime now 4 30 0 0)
      else if hr < 10 then some (replaceTime now 7 30 0 0)
      else if hr < 13 then some (replaceTime now 10 30 0 0)
      else some (replaceTime now 13 30 0 0) := by
  interval_cases hr <;>
    simp [resolve_end_of, REPORT_TIMES_UTC, pyMaxD, List.filter]

/-! ## Further helper lemmas -/

lemma getLastD_cons_mem (c0 : Nat) (rest : List Nat) :
    (c0 :: rest).getLastD 0 ∈ c0 :: rest := by
  rw [List.getLastD_eq_getLast?, List.getLast?_eq_getLast (c0 :: rest) (by simp)]
  exact List.getLast_mem _

lemma getD_mem_or (l : List Nat) (i d : Nat) : l.getD i d ∈ l ∨ l.getD i d = d := by
  by_cases h : i < l.length
  · left
    rw [List.getD_eq_getElem l d h]
    exact List.getElem_mem h
  · right
    simp [List.getD_eq_getElem?_getD, List.getElem?_eq_none (Nat.le_of_not_lt h)]

lemma pySplitChar_ne_nil (sep : Char) (l : List Char) : pySplitChar sep l ≠ [] := by
  induction l with
  | nil => simp [pySplitChar]
  | cons c rest ih =>
    simp only [pySplitChar]
    split_ifs
    · simp
    · cases h : pySplitChar sep rest <;> simp

/-! ## The claims -/

/-- C1 counterexample: at day 100, 03:00 UTC (hour component 3) the
source's `start_time` is *today* at 10:30, not day-before-yesterday at
10:30 as the claim states. -/
theorem claim1_counterexample :
    hourOf (atTime 100 3 0) = 3 ∧
    start_time (atTime 100 3 0) ≠ atTime 98 10 30 ∧
    start_time (atTime 100 3 0) = atTime 100 10 30 := by decide

/-- C1 (amended): for every instant with hour component 3 (and at least
one day after the epoch), the checkpoint selection wraps (the modelled
`end` is yesterday at 13:30), but the start computed by the source is
*today* at 10:30 — not day-before-yesterday at 10:30. -/
theorem claim1_amended (now : Nat) (h3 : hourOf now = 3) (hd : usPerDay ≤ now) :
    resolve_end REPORT_TIMES_UTC 30 now = some (atTime (dateOf now - 1) 13 30) ∧
    start_time now = atTime (dateOf now) 10 30 := by
  constructor
  · rw [resolve_end_eq_of, h3, resolve_end_rt_eval _ _ (by norm_num)]
    rw [if_pos (by norm_num), if_pos hd, replaceTime_eq_atTime, dateOf_sub_day _ hd]
  · rw [start_time_eq_of, h3, start_time_of_eval _ _ (by norm_num)]
    rw [if_pos (by norm_num), replaceTime_eq_atTime]

/-- C1 witness for the amended claim, at day 100, 03:00 UTC. -/
theorem claim1_amended_witness :
    resolve_end REPORT_TIMES_UTC 30 (atTime 100 3 0) =
      some (atTime (dateOf (atTime 100 3 0) - 1) 13 30) ∧
    start_time (atTime 100 3 0) = atTime (dateOf (atTime 100 3 0)) 10 30 :=
  claim1_amended (atTime 100 3 0) (by decide) (by decide)

/-- C2: the window invariant `start < end <= now_ceiling` (and in
particular `start <= now`) fails: at day 100, 03:00 UTC the modelled
`end`/`now_ceiling` is yesterday 13:30, while the source's `start_time`
is today 10:30 — later than `end` and later than `now` itself. -/
theorem claim2_bug_eval :
    resolve_end REPORT_TIMES_UTC 30 (atTime 100 3 0) = some (atTime 99 13 30) ∧
    atTime 100 3 0 < start_time (atTime 100 3 0) ∧
    atTime 99 13 30 < start_time (atTime 100 3 0) := by decide

/-- C3: for every instant with hour component 5 (at least one day after
the epoch), the modelled `end` is today at 04:30 and the source's
`start_time` is yesterday at 13:30, as the claim states. -/
theorem claim3_hour5_window (now : Nat) (h5 : hourOf now = 5) (hd : usPerDay ≤ now) :
    resolve_end REPORT_TIMES_UTC 30 now = some (atTime (dateOf now) 4 30) ∧
    start_time now = atTime (dateOf now - 1) 13 30 := by
  constructor
  · rw [resolve_end_eq_of, h5, resolve_end_rt_eval _ _ (by norm_num)]
    rw [if_neg (by norm_num), if_pos (by norm_num), replaceTime_eq_atTime]
  · rw [start_time_eq_of, h5, start_time_of_eval _ _ (by norm_num)]
    rw [if_neg (by norm_num), if_pos (by norm_num), replaceTime_eq_atTime,
      dateOf_sub_day _ hd]

/-- C3 witness at day 100, 05:00 UTC. -/
theorem claim3_hour5_window_witness :
    resolve_end REPORT_TIMES_UTC 30 (atTime 100 5 0) =
      some (atTime (dateOf (atTime 100 5 0)) 4 30) ∧
    start_time (atTime 100 5 0) = atTime (dateOf (atTime 100 5 0) - 1) 13 30 :=
  claim3_hour5_window (atTime 100 5 0) (by decide) (by decide)

/-- C4: a checkpoint equal to the current hour counts as passed: for
every instant with hour component 7 the selection picks checkpoint 7,
the modelled `end` is today at 07:30 and the source's `start_time` is
today at 04:30, as the claim states. -/
theorem claim4_hour7_window (now : Nat) (h7 : hourOf now = 7) :
    pyMaxD (REPORT_TIMES_UTC.filter (fun h => h ≤ hourOf now))
      (REPORT_TIMES_UTC.getLastD 0) = 7 ∧
    resolve_end REPORT_TIMES_UTC 30 now = some (atTime (dateOf now) 7 30) ∧
    start_time now = atTime (dateOf now) 4 30 := by
  refine ⟨by rw [h7]; decide, ?_, ?_⟩
  · rw [resolve_end_eq_of, h7, resolve_end_rt_eval _ _ (by norm_num)]
    rw [if_neg (by norm_num), if_neg (by norm_num), if_pos (by norm_num),
      replaceTime_eq_atTime]
  · rw [start_time_eq_of, h7, start_time_of_eval _ _ (by norm_num)]
    rw [if_neg (by norm_num), if_neg (by norm_num), if_pos (by norm_num),
      replaceTime_eq_atTime]

/-- C4 witness at day 100, 07:00 UTC. -/
theorem claim4_hour7_window_witness :
    pyMaxD (REPORT_TIMES_UTC.filter (fun h => h ≤ hourOf (atTime 100 7 0)))
      (REPORT_TIMES_UTC.getLastD 0) = 7 ∧
    resolve_end REPORT_TIMES_UTC 30 (atTime 100 7 0) =
      some (atTime (dateOf (atTime 100 7 0)) 7 30) ∧
    start_time (atTime 100 7 0) = atTime (dateOf (atTime 100 7 0)) 4 30 :=
  claim4_hour7_window (atTime 100 7 0) (by decide)

/-- C5: for the single-element checkpoint list `[9]`, start and end are
*not* always 24 hours apart: at day 100, 03:00 UTC (hour 3, before the
lone checkpoint) the resolver start and the modelled end coincide at
yesterday 09:30 — zero hours apart. -/
theorem claim5_bug_eval :
    hourOf (atTime 100 3 0) = 3 ∧
    resolve_start [9] 30 (atTime 100 3 0) = some (atTime 99 9 30) ∧
    resolve_end [9] 30 (atTime 100 3 0) = some (atTime 99 9 30) ∧
    atTime 99 9 30 + usPerDay ≠ atTime 99 9 30 := by decide

/-- C6: the resolver fails closed on an empty checkpoint list (Python
IndexError, modelled as `none`), and on any valid input — a non-empty
list of hour values below 24, a minute offset below 60, an instant at
least one day after the epoch — it returns a window start and never
fails. -/
theorem claim6_error_handling (cs : List Nat) (mo now : Nat) (hcs : cs ≠ [])
    (hvalid : ∀ h ∈ cs, h < 24) (hmo : mo < 60) (hday : usPerDay ≤ now) :
    resolve_start [] mo now = none ∧ ∃ w, resolve_start cs mo now = some w := by
  refine ⟨rfl, ?_⟩
  match cs, hcs with
  | c0 :: rest, _ =>
    have hlast : (c0 :: rest).getLastD 0 < 24 :=
      hvalid _ (getLastD_cons_mem c0 rest)
    simp only [resolve_start]
    split_ifs with h1 h2 h3
    · exact ⟨_, rfl⟩
    · exact absurd ⟨hlast, hmo, hday⟩ h2
    · exact ⟨_, rfl⟩
    · refine absurd ⟨?_, hmo⟩ h3
      rcases getD_mem_or (c0 :: rest)
          (pyIndex (c0 :: rest)
            (pyMaxD ((c0 :: rest).filter (fun h => h ≤ hourOf now))
              ((c0 :: rest).getLastD 0)) - 1) 0 with h | h
      · exact hvalid _ h
      · omega

/-- C6 witness: the empty list fails closed and `[4, 7, 10, 13]` with
offset 30 resolves at day 100, 05:00 UTC. -/
theorem claim6_error_handling_witness :
    resolve_start [] 30 (atTime 100 5 0) = none ∧
    ∃ w, resolve_start REPORT_TIMES_UTC 30 (atTime 100 5 0) = some w :=
  claim6_error_handling REPORT_TIMES_UTC 30 (atTime 100 5 0) (by decide)
    (by decide) (by decide) (by decide)

/-- C7: the window computation is a pure function of
`(now, checkpoints, minute_offset)`: two calls at the same instant give
identical results. -/
theorem claim7_deterministic (cs : List Nat) (mo t t' : Nat) (h : t = t') :
    start_time t = start_time t' ∧
    resolve_start cs mo t = resolve_start cs mo t' ∧
    resolve_end cs mo t = resolve_end cs mo t' := by
  subst h
  exact ⟨rfl, rfl, rfl⟩

/-- C7 witness at day 100, 05:00 UTC. -/
theorem claim7_deterministic_witness :
    start_time (atTime 100 5 0) = start_time (atTime 100 5 0) ∧
    resolve_start REPORT_TIMES_UTC 30 (atTime 100 5 0) =
      resolve_start REPORT_TIMES_UTC 30 (atTime 100 5 0) ∧
    resolve_end REPORT_TIMES_UTC 30 (atTime 100 5 0) =
      resolve_end REPORT_TIMES_UTC 30 (atTime 100 5 0) :=
  claim7_deterministic REPORT_TIMES_UTC 30 (atTime 100 5 0) (atTime 100 5 0) rfl

/-- C8: the success path of `fetch_feedback_data_in_chunks` returns a
7-tuple, which `main`'s 7-target assignment unpacks; the error path
returns the 4-tuple `(None, 0, 0, 0)`, whose unpacking by the same
assignment raises ValueError — the error sentinel is *not* unpackable
the same way as the success value. -/
theorem claim8_tuple_mismatch :
    (∀ df c1 c2 c3 c4 c5 c6,
      py_unpack main_unpack_targets
          (fetch_feedback_success_return df c1 c2 c3 c4 c5 c6) =
        Except.ok (fetch_feedback_success_return df c1 c2 c3 c4 c5 c6)) ∧
    py_unpack main_unpack_targets fetch_feedback_error_return =
      Except.error "ValueError: unpacking length mismatch" := by
  exact ⟨fun df c1 c2 c3 c4 c5 c6 => rfl, rfl⟩

/-- C9: for every instant, the source's `start_time` lies exactly on a
checkpoint boundary: its hour is one of the configured checkpoint hours
and its minute, second and microsecond components are 30, 0 and 0,
whatever the components of `now` are. -/
theorem claim9_start_on_checkpoint (now : Nat) :
    hourOf (start_time now) ∈ REPORT_TIMES_UTC ∧
    minuteOf (start_time now) = 30 ∧
    secondOf (start_time now) = 0 ∧
    microsecondOf (start_time now) = 0 := by
  rw [start_time_eq_of, start_time_of_eval _ _ (hourOf_lt now)]
  split_ifs <;>
    exact ⟨by rw [hourOf_replaceTime _ _ _ (by norm_num) (by norm_num)]; decide,
      by rw [minuteOf_replaceTime _ _ _ (by norm_num)],
      secondOf_replaceTime _ _ _,
      microsecondOf_replaceTime _ _ _⟩

/-- C10: `convert_str_to_list` returns non-string values unchanged; on a
string it strips the outer bracket characters, removes quote characters,
splits on commas and trims each piece; the empty string maps to `[""]`,
and no string ever maps to the empty list. -/
theorem claim10_convert_str_to_list :
    (∀ n, convert_str_to_list (PyObj.intO n) = PyObj.intO n) ∧
    (∀ l, convert_str_to_list (PyObj.listS l) = PyObj.listS l) ∧
    convert_str_to_list PyObj.noneO = PyObj.noneO ∧
    (∀ s, convert_str_to_list (PyObj.str s) = PyObj.listS (claimed_transform s)) ∧
    convert_str_to_list (PyObj.str "") = PyObj.listS [""] ∧
    (∀ s, convert_str_to_list (PyObj.str s) ≠ PyObj.listS []) := by
  refine ⟨fun n => rfl, fun l => rfl, rfl, fun s => rfl, by decide, fun s hEq => ?_⟩
  simp only [convert_str_to_list, PyObj.listS.injEq, List.map_eq_nil_iff] at hEq
  exact pySplitChar_ne_nil _ _ hEq

end Gesco
